import Mathlib

/-!
Verification of the SandScope upload/capture pipeline.

Shallow embedding of the client-side upload pipeline: the Validator
(UploadManager.validateFile / addFiles in imgtodb/upload.js), the upload
coordinator (SupabaseClient.completeUpload), the geolocation provider
(GeolocationManager.getLocationForUpload), the external-trigger poller
(SensorTriggerManager.markTriggerAsProcessed / processTrigger) and the
analysis fetcher (AnalysisManager.getAllAnalyses).  Browser objects are
replaced by explicit state records; awaited network and device calls are
replaced by explicit outcome parameters.
-/

namespace SandScope

/-! ## Data model -/

/-- A candidate file as seen by the browser: name, byte size and MIME type. -/
structure JSFile where
  name : String
  size : Nat
  mime : String
deriving DecidableEq, Repr

/-- The static APP_CONFIG object (config.js). -/
structure AppConfig where
  maxFileSize : Nat
  allowedTypes : List String
  maxFiles : Nat
deriving DecidableEq, Repr

/-- The concrete configuration shipped in config.js. -/
def defaultConfig : AppConfig :=
  { maxFileSize := 10 * 1024 * 1024
    allowedTypes := ["image/jpeg", "image/png", "image/gif", "image/webp"]
    maxFiles := 10 }

/-- Rejection reasons of UploadManager.validateFile, one constructor per
error string returned by the code, in the order the code checks them. -/
inductive RejectReason where
  | notAnImage      -- "Only image files are allowed"
  | unsupportedType -- "File type not supported"
  | tooLarge        -- "File size exceeds ...MB limit"
  | emptyFile       -- "File is empty"
  | duplicate       -- "Duplicate file"
deriving DecidableEq, Repr

/-! ## Validator (UploadManager.validateFile, upload.js lines 236-281) -/

/-- JS String.prototype.startsWith, written over the character list so that
it evaluates by kernel reduction. -/
def strStartsWith (s p : String) : Bool := p.data.isPrefixOf s.data

/-- UploadManager.validateFile: the chain of early-return checks, in source
order.  `selectedFiles` is `this.selectedFiles`, the queue of files already
accepted by earlier addFiles calls; the duplicate check scans it.
Returns none when the file is valid, some reason otherwise. -/
def validateFile (cfg : AppConfig) (selectedFiles : List JSFile) (file : JSFile) :
    Option RejectReason :=
  if ¬ strStartsWith file.mime "image/" then some .notAnImage
  else if ¬ cfg.allowedTypes.contains file.mime then some .unsupportedType
  else if cfg.maxFileSize < file.size then some .tooLarge
  else if file.size = 0 then some .emptyFile
  else if selectedFiles.any (fun g => g.name == file.name && g.size == file.size) then
    some .duplicate
  else none

/-- Modelled from the spec: the five rejection predicates paired with their
reasons, in the order the spec lists them (section 4.1). -/
def reasonChecks (cfg : AppConfig) (selectedFiles : List JSFile) (file : JSFile) :
    List (RejectReason × Bool) :=
  [ (.notAnImage, ! strStartsWith file.mime "image/"),
    (.unsupportedType, ! cfg.allowedTypes.contains file.mime),
    (.tooLarge, decide (cfg.maxFileSize < file.size)),
    (.emptyFile, file.size == 0),
    (.duplicate, selectedFiles.any (fun g => g.name == file.name && g.size == file.size)) ]

/-- Modelled from the spec: report the first matching rejection reason of
the fixed check order, none when no check matches. -/
def specFirstReason (cfg : AppConfig) (selectedFiles : List JSFile) (file : JSFile) :
    Option RejectReason :=
  ((reasonChecks cfg selectedFiles file).find? (fun p => p.2)).map (fun p => p.1)

example : validateFile defaultConfig []
    { name := "a.jpg", size := 100, mime := "image/jpeg" } = none := by decide

example : validateFile defaultConfig []
    { name := "a.pdf", size := 100, mime := "application/pdf" } = some .notAnImage := by decide

example : validateFile defaultConfig []
    { name := "a.bmp", size := 100, mime := "image/bmp" } = some .unsupportedType := by decide

example : validateFile defaultConfig []
    { name := "a.jpg", size := 11 * 1024 * 1024, mime := "image/jpeg" } =
      some .tooLarge := by decide

/-! ## Batch intake (UploadManager.addFiles, upload.js lines 187-234) -/

/-- Toast notifications, one constructor per window.showToast call site
that the embedded pipeline reaches. -/
inductive Toast where
  | rejectedSummary (errors : List (String × RejectReason))
      -- "Some files were rejected: ..."
  | maxFilesWarn (maxFiles : Nat) (allowedCount : Int)
      -- "Maximum N files allowed. Only first k files added."
  | noFilesSelected      -- "No files selected"
  | uploadInProgress     -- "Upload already in progress"
  | locationRequired     -- "Location access is required for uploading. ..."
  | uploadCancelled      -- "Upload cancelled"
  | uploadSuccessToast (n : Nat)        -- "Successfully uploaded N files"
  | uploadPartialToast (ok failed : Nat) -- "N files uploaded, M failed"
  | allUploadsFailed     -- "All uploads failed"
deriving DecidableEq, Repr

/-- JS Array.prototype.splice(start) removes every element from index
`start` on; the array keeps its prefix.  A negative `start` counts from the
end, clamped at 0.  This returns the kept prefix. -/
def spliceKeep {α : Type} (xs : List α) (start : Int) : List α :=
  if 0 ≤ start then xs.take start.toNat
  else xs.take (xs.length - (-start).toNat)

/-- Result of one addFiles call: the new selection queue, the per-file
rejection list, and the toasts shown, in order. -/
structure AddFilesResult where
  selectedFiles : List JSFile
  errors : List (String × RejectReason)
  toasts : List Toast
deriving DecidableEq, Repr

/-- UploadManager.addFiles: validate each file of the incoming batch
against the current queue (this.selectedFiles, unchanged during the loop),
toast a single rejection summary if any file failed, truncate the accepted
files so the queue stays within maxFiles (with one warning toast), then
append the survivors to the queue. -/
def addFiles (cfg : AppConfig) (queue : List JSFile) (files : List JSFile) :
    AddFilesResult :=
  let validFiles := files.filter (fun f => (validateFile cfg queue f).isNone)
  let errors := files.filterMap
    (fun f => (validateFile cfg queue f).map (fun r => (f.name, r)))
  let errToasts : List Toast :=
    if errors.isEmpty then [] else [.rejectedSummary errors]
  let totalFiles := queue.length + validFiles.length
  let allowedCount : Int := (cfg.maxFiles : Int) - (queue.length : Int)
  let kept :=
    if cfg.maxFiles < totalFiles then spliceKeep validFiles allowedCount else validFiles
  let limitToasts : List Toast :=
    if cfg.maxFiles < totalFiles then [.maxFilesWarn cfg.maxFiles allowedCount] else []
  { selectedFiles := queue ++ kept
    errors := errors
    toasts := errToasts ++ limitToasts }

/-- A well-formed 2 KiB JPEG used as concrete test data. -/
def fileA : JSFile := { name := "beach.jpg", size := 2048, mime := "image/jpeg" }

example : (addFiles defaultConfig [] [fileA]).selectedFiles = [fileA] := by decide

/-! ## Claim C3 -/

/-- C3: validateFile checks the rejection reasons in the fixed order
not-an-image, unsupported-type, too-large, empty-file, duplicate, and
reports exactly the first matching reason; a file of valid type over the
size ceiling is rejected as too-large, and a file whose MIME type is
outside the allow-list is rejected regardless of size. -/
theorem validateFile_first_matching_reason (cfg : AppConfig)
    (queue : List JSFile) (file : JSFile) :
    validateFile cfg queue file = specFirstReason cfg queue file ∧
    (strStartsWith file.mime "image/" = true →
      cfg.allowedTypes.contains file.mime = true →
      cfg.maxFileSize < file.size →
      validateFile cfg queue file = some .tooLarge) ∧
    (cfg.allowedTypes.contains file.mime = false →
      (validateFile cfg queue file).isSome = true) := by
  refine ⟨?_, ?_, ?_⟩
  · simp only [validateFile, specFirstReason, reasonChecks]
    split_ifs with h1 h2 h3 h4 h5 <;>
      simp_all [List.find?_cons, decide_eq_false_iff_not]
  · intro hA hB hC
    have hB' : file.mime ∈ cfg.allowedTypes := by simpa using hB
    simp [validateFile, hA, hB', hC]
  · intro hB
    have hB' : file.mime ∉ cfg.allowedTypes := by simpa using hB
    cases hA : strStartsWith file.mime "image/" <;>
      simp [validateFile, hA, hB']

/-- Concrete oversize JPEG for the C3 witness. -/
def bigJpeg : JSFile := { name := "big.jpg", size := 11 * 1024 * 1024, mime := "image/jpeg" }

/-- Concrete BMP (image type outside the allow-list) for the C3 witness. -/
def bmpFile : JSFile := { name := "a.bmp", size := 100, mime := "image/bmp" }

/-- Witness for C3 at concrete inputs. -/
theorem validateFile_first_matching_reason_witness :
    validateFile defaultConfig [] bigJpeg = some .tooLarge ∧
    (validateFile defaultConfig [] bmpFile).isSome = true := by
  have h1 := validateFile_first_matching_reason defaultConfig [] bigJpeg
  have h2 := validateFile_first_matching_reason defaultConfig [] bmpFile
  exact ⟨h1.2.1 (by decide) (by decide) (by decide), h2.2.2 (by decide)⟩

/-! ## Claim C2 -/

/-- Facts recoverable from a passing validation: the file is an allowed
image, within the size ceiling and non-empty. -/
theorem validateFile_none_facts (cfg : AppConfig) (queue : List JSFile)
    (f : JSFile) (h : validateFile cfg queue f = none) :
    strStartsWith f.mime "image/" = true ∧
    cfg.allowedTypes.contains f.mime = true ∧
    f.size ≤ cfg.maxFileSize ∧ f.size ≠ 0 := by
  simp only [validateFile] at h
  split_ifs at h with a1 a2 a3 a4 a5
  simp_all

/-- C2 counterexample: two files with identical name and byte size
submitted in the same addFiles batch are both accepted.  The duplicate
check scans this.selectedFiles, which is only extended after the whole
batch has been validated, so the second copy of fileA is not rejected. -/
theorem duplicate_same_batch_counterexample :
    (addFiles defaultConfig [] [fileA, fileA]).errors = [] ∧
    (addFiles defaultConfig [] [fileA, fileA]).selectedFiles = [fileA, fileA] := by
  decide

/-- C2 amended: the duplicate check works across addFiles calls.  Once f
has been accepted into the queue, a later submission of g with the same
name and size is rejected as duplicate, while h' with the same name but a
different size is accepted. -/
theorem duplicate_across_batches (cfg : AppConfig) (f g h' : JSFile)
    (hmax : 1 ≤ cfg.maxFiles)
    (hf : validateFile cfg [] f = none)
    (hg : validateFile cfg [] g = none)
    (hh : validateFile cfg [] h' = none)
    (hgname : g.name = f.name) (hgsize : g.size = f.size)
    (hhname : h'.name = f.name) (hhsize : h'.size ≠ f.size) :
    (addFiles cfg [] [f]).selectedFiles = [f] ∧
    validateFile cfg [f] g = some .duplicate ∧
    validateFile cfg [f] h' = none := by
  obtain ⟨hg1, hg2, hg3, hg4⟩ := validateFile_none_facts cfg [] g hg
  obtain ⟨hh1, hh2, hh3, hh4⟩ := validateFile_none_facts cfg [] h' hh
  refine ⟨?_, ?_, ?_⟩
  · have hnot : ¬ (cfg.maxFiles <
        ([] : List JSFile).length + ([f].filter
          (fun x => (validateFile cfg [] x).isNone)).length) := by
      simp [hf]; omega
    simp [addFiles, hf, hnot]
    intro h0
    exact absurd hmax (by omega)
  · have hmem : g.mime ∈ cfg.allowedTypes := by simpa using hg2
    have h3' : ¬ (cfg.maxFileSize < f.size) := Nat.not_lt.mpr (hgsize ▸ hg3)
    have h4' : f.size ≠ 0 := hgsize ▸ hg4
    simp [validateFile, hg1, hmem, h3', h4', hgname, hgsize]
  · have hmem : h'.mime ∈ cfg.allowedTypes := by simpa using hh2
    have hsz : (f.size == h'.size) = false :=
      beq_eq_false_iff_ne.mpr (fun e => hhsize e.symm)
    simp [validateFile, hh1, hmem, Nat.not_lt.mpr hh3, hh4, hhname, hsz]

/-- Same name as fileA, different size: not a duplicate. -/
def fileA2 : JSFile := { name := "beach.jpg", size := 4096, mime := "image/jpeg" }

/-- Witness for the amended C2 at concrete inputs. -/
theorem duplicate_across_batches_witness :
    (addFiles defaultConfig [] [fileA]).selectedFiles = [fileA] ∧
    validateFile defaultConfig [fileA] fileA = some .duplicate ∧
    validateFile defaultConfig [fileA] fileA2 = none :=
  duplicate_across_batches defaultConfig fileA fileA fileA2 (by decide)
    (by decide) (by decide) (by decide) rfl rfl rfl (by decide)

/-! ## Claim C4 -/

/-- C4: a batch of individually valid files longer than maxFiles is
truncated to exactly maxFiles accepted files, with no per-file rejection
and exactly one batch-level warning toast. -/
theorem addFiles_truncates_to_max (cfg : AppConfig) (files : List JSFile)
    (hvalid : ∀ f ∈ files, validateFile cfg [] f = none)
    (hover : cfg.maxFiles < files.length) :
    (addFiles cfg [] files).selectedFiles.length = cfg.maxFiles ∧
    (addFiles cfg [] files).errors = [] ∧
    (addFiles cfg [] files).toasts =
      [Toast.maxFilesWarn cfg.maxFiles (cfg.maxFiles : Int)] := by
  have hfilter : files.filter (fun f => (validateFile cfg [] f).isNone) = files :=
    List.filter_eq_self.mpr (fun f hf => by simp [hvalid f hf])
  have herr : files.filterMap
      (fun f => (validateFile cfg [] f).map (fun r => (f.name, r))) = [] := by
    rw [List.filterMap_eq_nil_iff]
    intro f hf
    simp [hvalid f hf]
  have hover' : cfg.maxFiles < ([] : List JSFile).length + files.length := by
    simpa using hover
  simp only [addFiles, hfilter, herr]
  simp [spliceKeep, hover']
  rw [if_pos hover]
  exact ⟨by simp [List.length_take, Nat.min_eq_left (Nat.le_of_lt hover)], hover⟩

/-- Witness for C4: eleven valid JPEGs against the shipped maxFiles = 10. -/
theorem addFiles_truncates_to_max_witness :
    (addFiles defaultConfig [] (List.replicate 11 fileA)).selectedFiles.length =
      defaultConfig.maxFiles ∧
    (addFiles defaultConfig [] (List.replicate 11 fileA)).errors = [] ∧
    (addFiles defaultConfig [] (List.replicate 11 fileA)).toasts =
      [Toast.maxFilesWarn defaultConfig.maxFiles (defaultConfig.maxFiles : Int)] :=
  addFiles_truncates_to_max defaultConfig (List.replicate 11 fileA)
    (by decide) (by decide)

/-! ## Upload Coordinator (SupabaseClient.completeUpload) -/

/-- A geolocation fix as produced by GeolocationManager.getCurrentLocation:
coordinates, accuracy in metres and the fix timestamp (milliseconds since
epoch; coordinates are scaled to integers since no arithmetic is done on
them). -/
structure GeoFix where
  latitude : Int
  longitude : Int
  accuracy : Nat
  timestamp : Int
deriving DecidableEq, Repr

/-- A row of the uploads table (MediaAsset) as built by completeUpload. -/
structure UploadRecord where
  file_name : String
  file_size : Nat
  file_type : String
  file_url : String
  location : Option GeoFix
deriving DecidableEq, Repr

/-- The remote backend: the set of object keys present in the storage
bucket and the rows of the uploads table. -/
structure Backend where
  storage : List String
  records : List UploadRecord
deriving DecidableEq, Repr

/-- Outcome of the POST to the analysis service made at the end of
completeUpload: the service accepted, the service answered with
success:false, or the fetch threw. -/
inductive AnalysisOutcome where
  | accepted
  | reportedFailure
  | thrown
deriving DecidableEq, Repr

/-- Outcomes of the awaited calls inside one completeUpload run:
whether the storage upload succeeds, what getLocationForUpload yields
(none models both a null return and a thrown error, which completeUpload
turns into its own throw), whether the metadata insert succeeds, and how
the analysis trigger ends. -/
structure UploadEnv where
  storageOk : Bool
  location : Option GeoFix
  metadataOk : Bool
  analysis : AnalysisOutcome
deriving DecidableEq, Repr

/-- Errors thrown out of completeUpload, tagged by the originating step. -/
inductive UploadError where
  | invalidFile     -- uploadFile pre-checks: empty file or not an image
  | storageFailed   -- storage.upload returned an error
  | locationRequired -- getLocationForUpload yielded no location
  | metadataFailed  -- table insert returned an error
deriving DecidableEq, Repr

/-- Console warnings of the analysis-trigger step (the only observable
effect of an analysis failure). -/
inductive AnalysisLog where
  | triggered        -- "Analysis triggered successfully"
  | reportedFailure  -- "Analysis service reported failure"
  | triggerFailed    -- "Failed to trigger analysis (upload still successful)"
deriving DecidableEq, Repr

/-- The value completeUpload resolves with: the inserted metadata row plus
storage path and public URL. -/
structure UploadSuccess where
  metadata : UploadRecord
  storage_path : String
  public_url : String
deriving DecidableEq, Repr

/-- Everything one completeUpload run produces: the resolved value or the
thrown error, the backend afterwards, and the analysis-step log. -/
structure UploadOutcome where
  result : Except UploadError UploadSuccess
  backend : Backend
  log : List AnalysisLog
deriving Repr

/-- SupabaseClient.getPublicUrl: a pure function of the object key. -/
def publicUrlOf (fileName : String) : String :=
  String.append "https://storage.example/public/" fileName

/-- An object key resolves to its public URL exactly when the object is
present in the bucket. -/
def resolvePublicUrl (b : Backend) (fileName : String) : Option String :=
  if b.storage.contains fileName then some (publicUrlOf fileName) else none

/-- SupabaseClient.uploadFile: validates the file (empty or non-image files
are thrown out before any network call), then performs the storage upload,
which either errors or adds the object under the given key. -/
def uploadFile (env : UploadEnv) (b : Backend) (file : JSFile)
    (fileName : String) : Except UploadError Backend :=
  if file.size = 0 then .error .invalidFile
  else if ¬ strStartsWith file.mime "image/" then .error .invalidFile
  else if env.storageOk then .ok { b with storage := b.storage ++ [fileName] }
  else .error .storageFailed

/-- The console log line of the analysis-trigger block of completeUpload:
the fetch result is inspected and logged; nothing else happens, the catch
swallows a thrown error. -/
def analysisLogOf : AnalysisOutcome → AnalysisLog
  | .accepted => .triggered
  | .reportedFailure => .reportedFailure
  | .thrown => .triggerFailed

/-- SupabaseClient.completeUpload: upload the object, resolve the public
URL, acquire the mandatory location (aborting with a throw when absent),
insert the metadata row, then fire the analysis trigger whose failures are
caught and only logged.  No step rolls back an earlier one. -/
def completeUpload (env : UploadEnv) (b : Backend) (file : JSFile)
    (fileName : String) : UploadOutcome :=
  match uploadFile env b file fileName with
  | .error e => { result := .error e, backend := b, log := [] }
  | .ok b1 =>
    let publicUrl := publicUrlOf fileName
    match env.location with
    | none => { result := .error .locationRequired, backend := b1, log := [] }
    | some loc =>
      let uploadData : UploadRecord :=
        { file_name := file.name
          file_size := file.size
          file_type := file.mime
          file_url := publicUrl
          location := some loc }
      if env.metadataOk then
        let b2 : Backend := { b1 with records := b1.records ++ [uploadData] }
        { result := .ok { metadata := uploadData
                          storage_path := fileName
                          public_url := publicUrl }
          backend := b2
          log := [analysisLogOf env.analysis] }
      else { result := .error .metadataFailed, backend := b1, log := [] }

/-- File name generated by completeUpload: Date.now() prefix plus the
original name; `ts` stands in for the clock reading. -/
def generatedFileName (ts : Nat) (file : JSFile) : String :=
  String.append (String.append (toString ts) "_") file.name

/-- Result of UploadManager.uploadFiles over one batch. -/
structure BatchResult where
  backend : Backend
  successes : Nat
  failures : Nat
  toasts : List Toast
  validatorChecks : Nat
deriving DecidableEq, Repr

/-- UploadManager.uploadFiles: run completeUpload on each selected file in
order, counting successes and failures, then toast the batch summary.
validatorChecks counts how often the pre-upload validation inside
uploadFile ran (once per completeUpload call). -/
def uploadFiles (env : UploadEnv) (b : Backend) (files : List JSFile)
    (ts : Nat) : BatchResult :=
  let r := files.enum.foldl
    (fun acc p =>
      let out := completeUpload env acc.1 p.2 (generatedFileName (ts + p.1) p.2)
      match out.result with
      | .ok _ => (out.backend, acc.2.1 + 1, acc.2.2.1, acc.2.2.2 + 1)
      | .error _ => (out.backend, acc.2.1, acc.2.2.1 + 1, acc.2.2.2 + 1))
    (b, 0, 0, 0)
  let toasts : List Toast :=
    if r.2.2.1 = 0 then [.uploadSuccessToast r.2.1]
    else if 0 < r.2.1 then [.uploadPartialToast r.2.1 r.2.2.1]
    else [.allUploadsFailed]
  { backend := r.1
    successes := r.2.1
    failures := r.2.2.1
    toasts := toasts
    validatorChecks := r.2.2.2 }

/-- UploadManager.startUpload: refuse an empty selection, refuse a
re-entrant start, check the mandatory location permission (locationOk is
the outcome of checkLocationPermission, false when getCurrentLocation
throws or yields null) and only then run the batch.  Returns the backend
afterwards, the toasts shown, and how often the upload-path validation
ran. -/
def startUpload (files : List JSFile) (isUploading : Bool)
    (locationOk : Bool) (env : UploadEnv) (b : Backend) (ts : Nat) :
    Backend × List Toast × Nat :=
  if files.isEmpty then (b, [.noFilesSelected], 0)
  else if isUploading then (b, [.uploadInProgress], 0)
  else if ¬ locationOk then (b, [.locationRequired], 0)
  else
    let r := uploadFiles env b files ts
    (r.backend, r.toasts, r.validatorChecks)

/-! ## Claim C5 -/

/-- C5: with no resolvable location, startUpload aborts before any
per-file work: the backend is untouched (zero MediaAsset records
created), the single surfaced toast is the location-permission error,
and the upload-path validation never runs. -/
theorem startUpload_aborts_without_location (files : List JSFile)
    (env : UploadEnv) (b : Backend) (ts : Nat) (h : files ≠ []) :
    startUpload files false false env b ts = (b, [Toast.locationRequired], 0) := by
  have he : files.isEmpty = false := by
    simpa [List.isEmpty_iff] using h
  simp [startUpload, he]

/-- The empty backend used in concrete runs. -/
def emptyBackend : Backend := { storage := [], records := [] }

/-- A concrete resolvable fix. -/
def testFix : GeoFix :=
  { latitude := 12971598, longitude := 77594566, accuracy := 10, timestamp := 1000 }

/-- Environment in which every awaited call succeeds. -/
def okEnv : UploadEnv :=
  { storageOk := true, location := some testFix, metadataOk := true,
    analysis := .accepted }

/-- Witness for C5 at concrete inputs. -/
theorem startUpload_aborts_without_location_witness :
    startUpload [fileA] false false okEnv emptyBackend 1700000000000 =
      (emptyBackend, [Toast.locationRequired], 0) :=
  startUpload_aborts_without_location [fileA] okEnv emptyBackend
    1700000000000 (by decide)

/-! ## Claim C6 -/

/-- Environment where storage succeeds but the metadata insert fails. -/
def metaFailEnv (loc : GeoFix) (a : AnalysisOutcome) : UploadEnv :=
  { storageOk := true, location := some loc, metadataOk := false, analysis := a }

/-- Environment where storage and metadata succeed and the analysis POST
ends as given. -/
def analysisEnv (loc : GeoFix) (o : AnalysisOutcome) : UploadEnv :=
  { storageOk := true, location := some loc, metadataOk := true, analysis := o }

/-- C6: when the metadata insert fails after the storage upload succeeded,
completeUpload throws tagged metadataFailed, no uploads row is created,
but the stored object is not deleted and still resolves to a public URL:
committed steps are not rolled back. -/
theorem completeUpload_no_rollback (loc : GeoFix) (a : AnalysisOutcome)
    (b : Backend) (file : JSFile) (fileName : String)
    (h0 : file.size ≠ 0) (h1 : strStartsWith file.mime "image/" = true) :
    (completeUpload (metaFailEnv loc a) b file fileName).result =
      .error .metadataFailed ∧
    (completeUpload (metaFailEnv loc a) b file fileName).backend.records =
      b.records ∧
    resolvePublicUrl
      (completeUpload (metaFailEnv loc a) b file fileName).backend fileName =
      some (publicUrlOf fileName) := by
  simp [completeUpload, uploadFile, metaFailEnv, h0, h1, resolvePublicUrl]

/-- Witness for C6 at concrete inputs. -/
theorem completeUpload_no_rollback_witness :
    (completeUpload (metaFailEnv testFix .accepted)
        emptyBackend fileA "1_beach.jpg").result = .error .metadataFailed ∧
    (completeUpload (metaFailEnv testFix .accepted)
        emptyBackend fileA "1_beach.jpg").backend.records = emptyBackend.records ∧
    resolvePublicUrl
      (completeUpload (metaFailEnv testFix .accepted)
        emptyBackend fileA "1_beach.jpg").backend "1_beach.jpg" =
      some (publicUrlOf "1_beach.jpg") :=
  completeUpload_no_rollback testFix .accepted emptyBackend fileA "1_beach.jpg"
    (by decide) (by decide)

/-! ## Claim C10 -/

/-- C10: a failing analysis trigger never fails the upload: once storage
and metadata succeeded, completeUpload resolves with the metadata plus
storage path and public URL for every outcome of the analysis POST, and a
thrown POST leaves only a log entry. -/
theorem completeUpload_ignores_analysis_failure (loc : GeoFix) (b : Backend)
    (file : JSFile) (fileName : String) (o : AnalysisOutcome)
    (h0 : file.size ≠ 0) (h1 : strStartsWith file.mime "image/" = true) :
    (completeUpload (analysisEnv loc o) b file fileName).result =
      .ok { metadata := { file_name := file.name, file_size := file.size,
                          file_type := file.mime,
                          file_url := publicUrlOf fileName,
                          location := some loc }
            storage_path := fileName
            public_url := publicUrlOf fileName } ∧
    (o = .thrown →
      (completeUpload (analysisEnv loc o) b file fileName).log =
        [AnalysisLog.triggerFailed]) := by
  constructor
  · simp [completeUpload, uploadFile, analysisEnv, h0, h1]
  · intro ho
    subst ho
    simp [completeUpload, uploadFile, analysisEnv, h0, h1, analysisLogOf]

/-- Witness for C10 at concrete inputs, with the POST throwing. -/
theorem completeUpload_ignores_analysis_failure_witness :
    (completeUpload (analysisEnv testFix .thrown)
        emptyBackend fileA "1_beach.jpg").result =
      .ok { metadata := { file_name := fileA.name, file_size := fileA.size,
                          file_type := fileA.mime,
                          file_url := publicUrlOf "1_beach.jpg",
                          location := some testFix }
            storage_path := "1_beach.jpg"
            public_url := publicUrlOf "1_beach.jpg" } ∧
    (completeUpload (analysisEnv testFix .thrown)
        emptyBackend fileA "1_beach.jpg").log = [AnalysisLog.triggerFailed] := by
  have h := completeUpload_ignores_analysis_failure testFix emptyBackend fileA
    "1_beach.jpg" .thrown (by decide) (by decide)
  exact ⟨h.1, h.2 rfl⟩

/-! ## External-Trigger Poller (SensorTriggerManager, src/unnamed/part_004) -/

/-- A row of the sensor_data table (CaptureTrigger): id, the button
signal, and the consumed flag named processed in the schema. -/
structure TriggerRow where
  id : String
  button : String
  processed : Bool
deriving DecidableEq, Repr

/-- The WHERE clause of the claim update: id = triggerId AND
processed = false. -/
def claimPred (triggerId : String) (r : TriggerRow) : Bool :=
  r.id == triggerId && r.processed == false

/-- The SET clause applied to one row: rows matched by the WHERE clause
get processed = true, others are untouched. -/
def claimUpdate (triggerId : String) (r : TriggerRow) : TriggerRow :=
  if claimPred triggerId r then { r with processed := true } else r

/-- SensorTriggerManager.markTriggerAsProcessed: the conditional update
SET processed = true WHERE id = triggerId AND processed = false, returning
the affected rows; the claim succeeds exactly when at least one row was
affected. -/
def markTriggerAsProcessed (db : List TriggerRow) (triggerId : String) :
    Bool × List TriggerRow :=
  let updated := db.filter (claimPred triggerId)
  let db' := db.map (claimUpdate triggerId)
  (! updated.isEmpty, db')

/-- Poller-side counter of captureTriggeredPhoto invocations. -/
structure PollerState where
  captures : Nat
deriving DecidableEq, Repr

/-- SensorTriggerManager.processTrigger: claim the row first via
markTriggerAsProcessed; when the claim affected no row, skip silently
without capturing; otherwise proceed to the capture.  Returns the
database, the poller state, and whether this attempt captured. -/
def processTrigger (db : List TriggerRow) (st : PollerState)
    (triggerId : String) : List TriggerRow × PollerState × Bool :=
  let m := markTriggerAsProcessed db triggerId
  if m.1 then (m.2, { captures := st.captures + 1 }, true)
  else (m.2, st, false)

/-- A claim on a row that is present and unconsumed succeeds. -/
theorem markTrigger_claims_unprocessed (db : List TriggerRow) (id : String)
    (h : ∃ r ∈ db, r.id = id ∧ r.processed = false) :
    (markTriggerAsProcessed db id).1 = true := by
  obtain ⟨r, hr, hid, hproc⟩ := h
  have hmem : r ∈ db.filter (claimPred id) :=
    List.mem_filter.mpr ⟨hr, by simp [claimPred, hid, hproc]⟩
  have hne : db.filter (claimPred id) ≠ [] := List.ne_nil_of_mem hmem
  cases he : (db.filter (claimPred id)).isEmpty
  · simp [markTriggerAsProcessed, he]
  · exact absurd (List.isEmpty_iff.mp he) hne

/-- A row that went through the claim update no longer matches the WHERE
clause of the claim. -/
theorem claimPred_claimUpdate (id : String) (r : TriggerRow) :
    claimPred id (claimUpdate id r) = false := by
  by_cases hc : claimPred id r = true
  · have hc' : r.id = id ∧ r.processed = false := by simpa [claimPred] using hc
    simp [claimUpdate, claimPred, hc', hc'.1, hc'.2]
  · simp [claimUpdate, hc]

/-- After any claim on a row id, a second claim on the same id affects no
row. -/
theorem markTrigger_second_claim_fails (db : List TriggerRow) (id : String) :
    (markTriggerAsProcessed (markTriggerAsProcessed db id).2 id).1 = false := by
  have hnil : (db.map (claimUpdate id)).filter (claimPred id) = [] := by
    rw [List.filter_eq_nil_iff]
    intro a ha
    obtain ⟨r, hr, rfl⟩ := List.mem_map.mp ha
    simp [claimPred_claimUpdate id r]
  simp [markTriggerAsProcessed, hnil]

/-! ## Claim C1 -/

/-- C1: claiming a trigger is a compare-and-set on the consumed flag:
on an unconsumed row the first of two claim attempts succeeds and
captures, the second observes zero affected rows and skips without
capturing, leaving exactly one capture in total. -/
theorem trigger_claim_compare_and_set (db : List TriggerRow) (id : String)
    (h : ∃ r ∈ db, r.id = id ∧ r.processed = false) :
    (processTrigger db ⟨0⟩ id).2.2 = true ∧
    (processTrigger (processTrigger db ⟨0⟩ id).1
        (processTrigger db ⟨0⟩ id).2.1 id).2.2 = false ∧
    (processTrigger (processTrigger db ⟨0⟩ id).1
        (processTrigger db ⟨0⟩ id).2.1 id).2.1.captures = 1 := by
  have h1 := markTrigger_claims_unprocessed db id h
  have h2 := markTrigger_second_claim_fails db id
  refine ⟨?_, ?_, ?_⟩ <;> simp [processTrigger, h1, h2]

/-- A concrete unconsumed trigger row. -/
def triggerRow1 : TriggerRow :=
  { id := "trig-0001", button := "yes", processed := false }

/-- Witness for C1 at a concrete one-row table. -/
theorem trigger_claim_compare_and_set_witness :
    (processTrigger [triggerRow1] ⟨0⟩ "trig-0001").2.2 = true ∧
    (processTrigger (processTrigger [triggerRow1] ⟨0⟩ "trig-0001").1
        (processTrigger [triggerRow1] ⟨0⟩ "trig-0001").2.1 "trig-0001").2.2 = false ∧
    (processTrigger (processTrigger [triggerRow1] ⟨0⟩ "trig-0001").1
        (processTrigger [triggerRow1] ⟨0⟩ "trig-0001").2.1 "trig-0001").2.1.captures = 1 :=
  trigger_claim_compare_and_set [triggerRow1] "trig-0001" ⟨triggerRow1, by decide⟩

/-! ## Triggered camera capture (SensorTriggerManager.accessCameraAndCapture) -/

/-- Camera and promise events observable in one run of
accessCameraAndCapture. -/
inductive CamEvent where
  | acquire  -- getUserMedia succeeded, this.currentStream set
  | release  -- stopCameraStream: stop all tracks, clear currentStream
  | resolve  -- promise resolved with the captured blob
  | reject   -- promise rejected
deriving DecidableEq, Repr

/-- The exit paths of accessCameraAndCapture. -/
inductive CaptureOutcome where
  | success       -- toBlob produced a non-empty blob
  | captureError  -- drawing or toBlob threw, or the blob was empty
  | videoError    -- video.onerror fired
  | playError     -- video.play() rejected
  | timeout       -- the 10 s fallback timer fired first
  | acquireError  -- getUserMedia itself threw
deriving DecidableEq, Repr

/-- Event trace of accessCameraAndCapture per exit path, read off the code:
every path that acquired the stream calls stopCameraStream before settling
the promise; the getUserMedia failure path settles without ever having
acquired it. -/
def accessCameraAndCapture : CaptureOutcome → List CamEvent
  | .success => [.acquire, .release, .resolve]
  | .captureError => [.acquire, .release, .reject]
  | .videoError => [.acquire, .release, .reject]
  | .playError => [.acquire, .release, .reject]
  | .timeout => [.acquire, .release, .reject]
  | .acquireError => [.reject]

/-- The hard fallback timeout of accessCameraAndCapture. -/
def captureTimeoutMs : Nat := 10000

/-- The camera stabilization delay before the frame is grabbed. -/
def captureStabilizationDelayMs : Nat := 3000

/-- A trace leaks nothing when the promise only settles while the stream
is not held and the stream is not held at the end either. -/
def noLeak (isOpen : Bool) : List CamEvent → Bool
  | [] => ! isOpen
  | .acquire :: rest => noLeak true rest
  | .release :: rest => noLeak false rest
  | .resolve :: rest => ! isOpen && noLeak isOpen rest
  | .reject :: rest => ! isOpen && noLeak isOpen rest

/-! ## Claim C7 -/

/-- C7: triggered capture is bounded by a hard timeout (10 s, longer than
the 3 s stabilization delay), and on every exit path the camera stream is
released before the promise settles, so the device handle is never
leaked. -/
theorem capture_releases_stream_on_all_paths :
    (∀ o : CaptureOutcome, noLeak false (accessCameraAndCapture o) = true) ∧
    0 < captureTimeoutMs ∧
    captureStabilizationDelayMs < captureTimeoutMs := by
  refine ⟨?_, by decide, by decide⟩
  intro o
  cases o <;> rfl

/-! ## Analysis fetch (AnalysisManager, SandScore-Frontend/analysis-manager.js) -/

/-- Outcome of the GET to the analysis service in getAllAnalysesFromAPI. -/
inductive ApiResult (A : Type) where
  | httpError (status : Nat) -- response.ok false
  | aborted                  -- the 10 s AbortController timer fired
  | envelope1 (data : List A)     -- body with success true and data
  | envelope2 (analyses : List A) -- body with an analyses field
  | unexpected               -- any other body shape
  | networkError             -- fetch or json() threw
deriving DecidableEq, Repr

/-- Outcome of the Supabase grain_analysis query in getAllAnalyses. -/
inductive DbResult (A : Type) where
  | rows (data : List A)
  | dbError   -- the query resolved with an error
  | timedOut  -- the 5 s queryWithTimeout race rejected first
deriving DecidableEq, Repr

/-- The AbortController timeout on the API fetch. -/
def analysisApiTimeoutMs : Nat := 10000

/-- The queryWithTimeout bound on the Supabase fallback query. -/
def analysisDbTimeoutMs : Nat := 5000

/-- AnalysisManager.getAllAnalysesFromAPI: accept either tolerated
envelope; every failure (HTTP error, abort, unexpected shape, thrown
fetch) becomes an empty list instead of an exception. -/
def getAllAnalysesFromAPI {A : Type} : ApiResult A → List A
  | .httpError _ => []
  | .aborted => []
  | .envelope1 d => d
  | .envelope2 d => d
  | .unexpected => []
  | .networkError => []

/-- AnalysisManager.getAllAnalyses: try the API first; when it yields no
rows, fall back to the timed Supabase query, degrading every failure to an
empty list. -/
def getAllAnalyses {A : Type} (api : ApiResult A) (db : DbResult A) : List A :=
  let apiData := getAllAnalysesFromAPI api
  if 0 < apiData.length then apiData
  else
    match db with
    | .rows d => d
    | .dbError => []
    | .timedOut => []

/-- The API outcomes the code treats as failures. -/
def isApiFailure {A : Type} : ApiResult A → Bool
  | .httpError _ => true
  | .aborted => true
  | .envelope1 _ => false
  | .envelope2 _ => false
  | .unexpected => true
  | .networkError => true

/-- The database outcomes the code treats as failures. -/
def isDbFailure {A : Type} : DbResult A → Bool
  | .rows _ => false
  | .dbError => true
  | .timedOut => true

/-! ## Claim C8 -/

/-- C8: the analysis fetch applies request timeouts in the 5 to 10 second
range, accepts both tolerated response envelopes, and on any failure of
both the API and the database path returns an empty result set instead of
propagating the error. -/
theorem getAllAnalyses_degrades_to_empty {A : Type} (api : ApiResult A)
    (db : DbResult A) :
    (isApiFailure api = true → isDbFailure db = true →
      getAllAnalyses api db = []) ∧
    (∀ d : List A, getAllAnalysesFromAPI (ApiResult.envelope1 d) = d ∧
      getAllAnalysesFromAPI (ApiResult.envelope2 d) = d) ∧
    5000 ≤ analysisApiTimeoutMs ∧ analysisApiTimeoutMs ≤ 10000 ∧
    5000 ≤ analysisDbTimeoutMs ∧ analysisDbTimeoutMs ≤ 10000 := by
  refine ⟨?_, fun d => ⟨rfl, rfl⟩, by decide, by decide, by decide, by decide⟩
  intro hapi hdb
  cases api <;> cases db <;>
    simp_all [isApiFailure, isDbFailure, getAllAnalyses, getAllAnalysesFromAPI]

/-- Witness for C8: both paths time out, the caller still gets an empty
list; a well-formed envelope is passed through. -/
theorem getAllAnalyses_degrades_to_empty_witness :
    getAllAnalyses (ApiResult.aborted : ApiResult Nat) DbResult.timedOut = [] ∧
    getAllAnalysesFromAPI (ApiResult.envelope1 [1, 2, 3]) = [1, 2, 3] := by
  have h := getAllAnalyses_degrades_to_empty
    (ApiResult.aborted : ApiResult Nat) DbResult.timedOut
  exact ⟨h.1 rfl rfl, (h.2.1 [1, 2, 3]).1⟩

/-! ## Geolocation Provider (GeolocationManager.getLocationForUpload) -/

/-- State of the GeolocationManager singleton. -/
structure GeoState where
  currentLocation : Option GeoFix
deriving DecidableEq, Repr

/-- The five-minute freshness window, in milliseconds. -/
def freshnessWindowMs : Int := 5 * 60 * 1000

/-- GeolocationManager.getLocationForUpload: when there is no cached fix
or its timestamp is strictly before now minus five minutes, await
getCurrentLocation (`device` is what the device would answer: some fix on
success, none when the request errors, which the catch turns into a null
return with the cache untouched); otherwise serve the cache.  Returns the
location, the new state, and whether a fresh device fix was requested. -/
def getLocationForUpload (st : GeoState) (now : Int)
    (device : Option GeoFix) : Option GeoFix × GeoState × Bool :=
  let fiveMinutesAgo := now - freshnessWindowMs
  let stale :=
    match st.currentLocation with
    | none => true
    | some loc => decide (loc.timestamp < fiveMinutesAgo)
  if stale then
    match device with
    | some fix => (some fix, { currentLocation := some fix }, true)
    | none => (none, st, true)
  else (st.currentLocation, st, false)

/-- A fix taken at epoch 0. -/
def boundaryFix : GeoFix :=
  { latitude := 0, longitude := 0, accuracy := 5, timestamp := 0 }

/-- The fix the device would deliver if asked. -/
def freshDeviceFix : GeoFix :=
  { latitude := 1, longitude := 1, accuracy := 5, timestamp := 300000 }

/-! ## Claim C9 -/

/-- C9 counterexample: at now = 300000 a fix timestamped 0 is aged exactly
five minutes, hence not under the freshness threshold, yet
getLocationForUpload serves it from cache and issues no new fix request,
against the claim that it otherwise requests a new device fix. -/
theorem getLocationForUpload_boundary_counterexample :
    ¬ ((300000 : Int) - boundaryFix.timestamp < freshnessWindowMs) ∧
    (getLocationForUpload { currentLocation := some boundaryFix } 300000
      (some freshDeviceFix)).2.2 = false ∧
    (getLocationForUpload { currentLocation := some boundaryFix } 300000
      (some freshDeviceFix)).1 = some boundaryFix := by
  decide

/-- C9 amended: a cached fix aged under five minutes is returned with no
new fix request; a new device fix is requested exactly when there is no
cached fix or its age strictly exceeds five minutes (a fix aged exactly
five minutes is still served from cache). -/
theorem getLocationForUpload_freshness (st : GeoState) (now : Int)
    (device : Option GeoFix) :
    (∀ loc, st.currentLocation = some loc →
      now - loc.timestamp < freshnessWindowMs →
      getLocationForUpload st now device = (some loc, st, false)) ∧
    (∀ loc, st.currentLocation = some loc →
      freshnessWindowMs < now - loc.timestamp →
      (getLocationForUpload st now device).2.2 = true) ∧
    (st.currentLocation = none →
      (getLocationForUpload st now device).2.2 = true) := by
  refine ⟨?_, ?_, ?_⟩
  · intro loc hloc hfresh
    have hnot : ¬ (loc.timestamp < now - freshnessWindowMs) := by omega
    simp [getLocationForUpload, hloc, hnot]
  · intro loc hloc hstale
    have hlt : loc.timestamp < now - freshnessWindowMs := by omega
    cases device <;> simp [getLocationForUpload, hloc, hlt]
  · intro hnone
    cases device <;> simp [getLocationForUpload, hnone]

/-- Witness for the amended C9: a 100 s old fix is served from cache with
no request; a 10-minute-old fix triggers a fresh request. -/
theorem getLocationForUpload_freshness_witness :
    getLocationForUpload { currentLocation := some boundaryFix } 100000
      (some freshDeviceFix) =
      (some boundaryFix, { currentLocation := some boundaryFix }, false) ∧
    (getLocationForUpload { currentLocation := some boundaryFix } 600000
      (some freshDeviceFix)).2.2 = true := by
  have ha := getLocationForUpload_freshness
    { currentLocation := some boundaryFix } 100000 (some freshDeviceFix)
  have hb := getLocationForUpload_freshness
    { currentLocation := some boundaryFix } 600000 (some freshDeviceFix)
  exact ⟨ha.1 boundaryFix rfl (by decide), hb.2.1 boundaryFix rfl (by decide)⟩

end SandScope
